import Mathlib

/-!
Shallow embedding of the timed interview session state machine of
`ResumeInterviewPage` and of the evaluation pipeline of the Gemini service
module.  React component state is modelled as a record `Session`; every
asynchronous event handler of the source (the countdown effect, the speech
recognition callbacks, the proctoring signal handler, the advance routine,
the question-entry effect and the batch evaluation / summarisation effects)
becomes a function `Session → Session`, reflecting the single-threaded
cooperative model in which each callback turn reads the state left by the
previous turn.  External AI calls are modelled by an outcome oracle: the
code under test is the fallback and assembly logic around the call.
-/

namespace AIInterview

/-- Phases of the interview session, from the `InterviewState` union type. -/
inductive InterviewState
  | upload
  | generating
  | inProgress
  | evaluating
  | summarizing
  | results
deriving DecidableEq, Repr

/-- Sub-phase of an in-progress session, from the `InterviewPhase` union type. -/
inductive InterviewPhase
  | thinking
  | recording
  | idle
deriving DecidableEq, Repr

/-- Per-question evaluated result, from the `InterviewResult` interface. -/
structure InterviewResult where
  question : String
  answer : String
  feedback : String
  score : Int
deriving DecidableEq, Repr

instance : Inhabited InterviewResult := ⟨⟨"", "", "", 0⟩⟩

/-- Performance summary, from the `PerformanceSummary` interface. -/
structure PerformanceSummary where
  strengths : String
  areasForImprovement : String
deriving DecidableEq, Repr

/-- A selected file: only the fields the upload handler reads. -/
structure FileInfo where
  name : String
  type : String
deriving DecidableEq, Repr

/-- The component state of `ResumeInterviewPage`.  Each field embeds one
`useState` hook or `useRef` cell of the source; `recognitionRunning` tracks
whether the speech recognition engine has been started and not stopped;
`warningVisible` models the opacity of the proctoring warning banner;
`terminationReason`/`terminationMessage` record the arguments of the
`onTerminate` callback once it has been invoked. -/
structure Session where
  questions : List String
  currentQuestionIndex : Nat
  interviewState : InterviewState
  error : Option String
  interviewPhase : InterviewPhase
  timer : Nat
  transcribedText : String
  latestTranscript : String
  allAnswers : List String
  isAdvancing : Bool
  recognitionError : Option String
  faceDetectionWarnings : Nat
  warningVisible : Bool
  isTerminated : Bool
  recognitionRunning : Bool
  resumeFile : Option FileInfo
  interviewResults : List InterviewResult
  performanceSummary : Option PerformanceSummary
  terminationReason : Option String
  terminationMessage : Option String
deriving DecidableEq, Repr

/-- Duration in milliseconds after which the proctoring warning banner
auto-clears (the `setTimeout` in `handleFaceOutOfFrame`). -/
def warningAutoClearMs : Nat := 4000

/-- Termination message passed to `onTerminate` on the second violation. -/
def faceTerminationMessage : String :=
  "Interview terminated due to repeated face detection issues."

/-- The `handleFaceOutOfFrame` callback: ignores the signal when terminated
or not in progress; on a first violation raises the warning count to 1 and
shows the transient warning banner; on a further violation sets the
terminated latch and invokes `onTerminate`. -/
def handleFaceOutOfFrame (s : Session) : Session :=
  if s.isTerminated ∨ s.interviewState ≠ InterviewState.inProgress then s
  else if s.faceDetectionWarnings = 0 then
    { s with faceDetectionWarnings := 1, warningVisible := true }
  else
    { s with isTerminated := true,
             terminationReason := some "face_detection",
             terminationMessage := some faceTerminationMessage }

/-- Firing of the warning banner `setTimeout`: resets the banner opacity. -/
def warningTimeoutFire (s : Session) : Session :=
  { s with warningVisible := false }

/-- MIME types accepted by the upload handler. -/
def allowedTypes : List String :=
  ["application/pdf",
   "application/vnd.openxmlformats-officedocument.wordprocessingml.document",
   "text/plain"]

/-- Error message shown for an unsupported file type. -/
def unsupportedFileTypeMessage : String :=
  "Unsupported file type. Please upload a PDF, DOCX, or TXT file."

/-- The `handleFileChange` handler: with a non-empty file selection, rejects
a file whose MIME type is not allowed (setting the error and leaving the
selected file untouched), otherwise stores the file and clears the error. -/
def handleFileChange (files : List FileInfo) (s : Session) : Session :=
  match files with
  | [] => s
  | file :: _ =>
    if ¬ allowedTypes.contains file.type then
      { s with error := some unsupportedFileTypeMessage }
    else
      { s with resumeFile := some file, error := none }

/-- The `disabled` predicate of the Start Interview button:
`!resumeFile || !!error`. -/
def startButtonDisabled (s : Session) : Bool :=
  s.resumeFile.isNone || s.error.isSome

/-- JavaScript `String.prototype.trim`: removes leading and trailing
whitespace.  Structurally recursive so that concrete instances evaluate. -/
def jsTrim (s : String) : String :=
  String.mk (((s.data.dropWhile Char.isWhitespace).reverse.dropWhile
    Char.isWhitespace).reverse)

/-- The `handleAdvanceAfterRecording` routine: a no-op when the advance lock
is held or the session is terminated; otherwise takes the lock, stops the
speech recognition engine, commits the trimmed accumulated transcript into
the current answer slot, then either increments the question index or, on
the last question, transitions to the evaluating phase. -/
def handleAdvanceAfterRecording (s : Session) : Session :=
  if s.isAdvancing || s.isTerminated then s
  else
    let s1 := { s with isAdvancing := true, recognitionRunning := false }
    let s2 := { s1 with
      allAnswers := s1.allAnswers.set s1.currentQuestionIndex (jsTrim s1.latestTranscript) }
    if s2.currentQuestionIndex < s2.questions.length - 1 then
      { s2 with currentQuestionIndex := s2.currentQuestionIndex + 1 }
    else
      { s2 with interviewState := InterviewState.evaluating }

/-- The question-entry effect: when the session is in progress and the
current index is within bounds, resets the sub-phase to thinking with a
10-second timer, clears the transcript buffers, releases the advance lock
and clears any recognition error. -/
def questionEntryEffect (s : Session) : Session :=
  if s.interviewState = InterviewState.inProgress ∧
     s.currentQuestionIndex < s.questions.length then
    { s with interviewPhase := InterviewPhase.thinking,
             timer := 10,
             transcribedText := "",
             latestTranscript := "",
             isAdvancing := false,
             recognitionError := none }
  else s

/-- One turn of the countdown effect: a no-op unless in progress and not
terminated; with time remaining the scheduled one-second timeout fires and
decrements the timer; at zero in the thinking sub-phase it enters recording
with a 30-second timer and starts the recognition engine; at zero in the
recording sub-phase it invokes the advance routine. -/
def timerStep (s : Session) : Session :=
  if s.interviewState ≠ InterviewState.inProgress ∨ s.isTerminated then s
  else if 0 < s.timer then
    { s with timer := s.timer - 1 }
  else if s.interviewPhase = InterviewPhase.thinking then
    { s with interviewPhase := InterviewPhase.recording,
             timer := 30,
             recognitionRunning := true }
  else if s.interviewPhase = InterviewPhase.recording then
    handleAdvanceAfterRecording s
  else s

/-- The `onresult` callback of the recognition engine: appends the finalized
transcript fragments of the event, followed by a space, to the running
transcript and mirrors it into the displayed text. -/
def speechResult (finalTranscript : String) (s : Session) : Session :=
  let t := s.latestTranscript ++ finalTranscript ++ " "
  { s with latestTranscript := t, transcribedText := t }

/-- The user-facing message chosen by the `onerror` callback for a given
engine error code. -/
def recognitionErrorMessage (code : String) : String :=
  if code = "no-speech" then
    "We didn't hear you. Please ensure your microphone is working and speak clearly."
  else if code = "not-allowed" ∨ code = "service-not-allowed" then
    "Microphone access was denied. Please check your browser permissions."
  else if code = "audio-capture" then
    "There was a problem with your microphone. Please check your hardware."
  else
    "An unknown microphone error occurred."

/-- The `onerror` callback of the recognition engine: surfaces the
user-visible message and immediately invokes the advance routine. -/
def speechError (code : String) (s : Session) : Session :=
  handleAdvanceAfterRecording
    { s with recognitionError := some (recognitionErrorMessage code) }

/-- Outcome of one external AI call: the request either fails (network or
parse error, thrown validation error) or yields a parsed response value. -/
inductive AiCallOutcome (α : Type)
  | failure
  | success (val : α)
deriving DecidableEq, Repr

/-- A parsed evaluation response: each field is `none` when missing or not
of the expected JSON type (the `typeof` checks of the source). -/
structure EvalResponse where
  feedback : Option String
  score : Option Int
deriving DecidableEq, Repr

/-- Fallback feedback when the AI client cannot be constructed. -/
def apiKeyMissingFeedback : String :=
  "Could not connect to the AI service. The API key is not configured correctly."

/-- Fallback feedback when an evaluation call fails or is malformed. -/
def evalErrorFeedback : String :=
  "An error occurred while evaluating the answer. Please try again."

/-- The result type of `evaluateAnswer`. -/
structure EvalResult where
  feedback : String
  score : Int
deriving DecidableEq, Repr

/-- The `evaluateAnswer` service call: with no API key configured it returns
the fixed fallback with score 0; on a failed call, or a response whose
`feedback` is not a string or whose `score` is not a number, it returns the
error fallback with score 0; otherwise it returns the response verbatim.
The question and answer only feed the prompt, so the response is supplied
by the `outcome` oracle. -/
def evaluateAnswer (apiKeyConfigured : Bool)
    (outcome : AiCallOutcome EvalResponse) : EvalResult :=
  if ¬ apiKeyConfigured then
    { feedback := apiKeyMissingFeedback, score := 0 }
  else
    match outcome with
    | AiCallOutcome.failure => { feedback := evalErrorFeedback, score := 0 }
    | AiCallOutcome.success r =>
      match r.feedback, r.score with
      | some f, some sc => { feedback := f, score := sc }
      | some _, none => { feedback := evalErrorFeedback, score := 0 }
      | none, _ => { feedback := evalErrorFeedback, score := 0 }

/-- Placeholder substitution `allAnswers[i] || "[No answer recorded]"`:
an empty (falsy) committed answer becomes the fixed placeholder. -/
def answerOrPlaceholder (a : String) : String :=
  if a = "" then "[No answer recorded]" else a

/-- The request payloads issued by `evaluateAllAnswers`: one per question,
in question order, each carrying the question and its committed answer
after placeholder substitution. -/
def evaluationRequests (s : Session) : List (String × String) :=
  (List.range s.questions.length).map fun i =>
    (s.questions.getD i "", answerOrPlaceholder (s.allAnswers.getD i ""))

/-- The batch evaluation effect: when the phase is evaluating, issues one
`evaluateAnswer` request per question, waits for all of them (`Promise.all`
returns the responses positionally, so completion order cannot affect the
assembly), zips the responses with the questions and substituted answers in
original question order, stores the results and transitions to the
summarizing phase.  `oracle i` is the outcome of the call for question `i`. -/
def evaluateAllAnswers (apiKeyConfigured : Bool)
    (oracle : Nat → AiCallOutcome EvalResponse) (s : Session) : Session :=
  if s.interviewState = InterviewState.evaluating then
    let finalResults := (List.range s.questions.length).map fun i =>
      let req := (s.questions.getD i "", answerOrPlaceholder (s.allAnswers.getD i ""))
      let er := evaluateAnswer apiKeyConfigured (oracle i)
      { question := req.1, answer := req.2,
        feedback := er.feedback, score := er.score : InterviewResult }
    { s with interviewResults := finalResults,
             interviewState := InterviewState.summarizing }
  else s

/-- Fallback summary when the AI client cannot be constructed. -/
def summaryApiKeyFallback : PerformanceSummary :=
  { strengths := "Could not connect to the AI service to generate a summary.",
    areasForImprovement := "API key is not configured correctly." }

/-- Fallback summary when the summarisation call fails. -/
def summaryErrorFallback : PerformanceSummary :=
  { strengths := "An error occurred while generating the performance summary.",
    areasForImprovement := "Please review the individual feedback for each question." }

/-- The `summarizeInterviewPerformance` service call: fallback summaries on
a missing API key or a failed call, otherwise the parsed response. -/
def summarizeInterviewPerformance (apiKeyConfigured : Bool)
    (outcome : AiCallOutcome PerformanceSummary) : PerformanceSummary :=
  if ¬ apiKeyConfigured then summaryApiKeyFallback
  else
    match outcome with
    | AiCallOutcome.failure => summaryErrorFallback
    | AiCallOutcome.success r => r

/-- The summarisation effect: when the phase is summarizing, stores the
summary and transitions to the results phase. -/
def summarizeStep (apiKeyConfigured : Bool)
    (outcome : AiCallOutcome PerformanceSummary) (s : Session) : Session :=
  if s.interviewState = InterviewState.summarizing then
    { s with
      performanceSummary :=
        some (summarizeInterviewPerformance apiKeyConfigured outcome),
      interviewState := InterviewState.results }
  else s

/-- A concrete in-progress session used to instantiate witness theorems:
two questions, currently recording the first answer. -/
def sampleSession : Session :=
  { questions := ["Q1", "Q2"]
    currentQuestionIndex := 0
    interviewState := InterviewState.inProgress
    error := none
    interviewPhase := InterviewPhase.recording
    timer := 0
    transcribedText := "hello world "
    latestTranscript := "hello world "
    allAnswers := ["", ""]
    isAdvancing := false
    recognitionError := none
    faceDetectionWarnings := 0
    warningVisible := false
    isTerminated := false
    recognitionRunning := true
    resumeFile := some { name := "cv.pdf", type := "application/pdf" }
    interviewResults := []
    performanceSummary := none
    terminationReason := none
    terminationMessage := none }

/-- A no-op advance: the lock is already held. -/
lemma handleAdvance_locked (s : Session) (h : s.isAdvancing = true) :
    handleAdvanceAfterRecording s = s := by
  simp [handleAdvanceAfterRecording, h]

/-- A no-op advance: the session is terminated. -/
lemma handleAdvance_terminated (s : Session) (h : s.isTerminated = true) :
    handleAdvanceAfterRecording s = s := by
  simp [handleAdvanceAfterRecording, h]

/-- Explicit form of an unlocked, non-terminated advance. -/
lemma handleAdvance_unlocked (s : Session)
    (hA : s.isAdvancing = false) (hT : s.isTerminated = false) :
    handleAdvanceAfterRecording s =
      if s.currentQuestionIndex < s.questions.length - 1 then
        { s with isAdvancing := true, recognitionRunning := false,
                 allAnswers :=
                   s.allAnswers.set s.currentQuestionIndex (jsTrim s.latestTranscript),
                 currentQuestionIndex := s.currentQuestionIndex + 1 }
      else
        { s with isAdvancing := true, recognitionRunning := false,
                 allAnswers :=
                   s.allAnswers.set s.currentQuestionIndex (jsTrim s.latestTranscript),
                 interviewState := InterviewState.evaluating } := by
  simp [handleAdvanceAfterRecording, hA, hT]

/-- Explicit form of an unlocked advance on a non-final question. -/
lemma handleAdvance_unlocked_next (s : Session)
    (hA : s.isAdvancing = false) (hT : s.isTerminated = false)
    (hc : s.currentQuestionIndex < s.questions.length - 1) :
    handleAdvanceAfterRecording s =
      { s with isAdvancing := true, recognitionRunning := false,
               allAnswers :=
                 s.allAnswers.set s.currentQuestionIndex (jsTrim s.latestTranscript),
               currentQuestionIndex := s.currentQuestionIndex + 1 } := by
  simp [handleAdvanceAfterRecording, hA, hT, hc]

/-- Explicit form of an unlocked advance on the final question. -/
lemma handleAdvance_unlocked_last (s : Session)
    (hA : s.isAdvancing = false) (hT : s.isTerminated = false)
    (hc : ¬ s.currentQuestionIndex < s.questions.length - 1) :
    handleAdvanceAfterRecording s =
      { s with isAdvancing := true, recognitionRunning := false,
               allAnswers :=
                 s.allAnswers.set s.currentQuestionIndex (jsTrim s.latestTranscript),
               interviewState := InterviewState.evaluating } := by
  simp [handleAdvanceAfterRecording, hA, hT, hc]

/-- A capture-engine error while the lock is held only records the message. -/
lemma speechError_locked (c : String) (s : Session) (h : s.isAdvancing = true) :
    speechError c s =
      { s with recognitionError := some (recognitionErrorMessage c) } := by
  simp [speechError, handleAdvanceAfterRecording, h]

/-- The countdown effect at zero in the recording sub-phase invokes advance. -/
lemma timerStep_recording_zero (s : Session)
    (hIn : s.interviewState = InterviewState.inProgress)
    (hT : s.isTerminated = false)
    (hPh : s.interviewPhase = InterviewPhase.recording)
    (hTimer : s.timer = 0) :
    timerStep s = handleAdvanceAfterRecording s := by
  simp [timerStep, hIn, hT, hPh, hTimer]

/-- Claim C4: when neither locked nor terminated, advance sets the lock,
stops the speech capture engine, commits the trimmed accumulated transcript
into the current answer slot; on the last question it transitions the phase
to evaluating, otherwise it increments the index and the question-entry
effect for the new index enters the thinking sub-phase with the lock
already released. -/
theorem advance_commits_and_progresses (s : Session)
    (hA : s.isAdvancing = false) (hT : s.isTerminated = false)
    (hIn : s.interviewState = InterviewState.inProgress)
    (hIdx : s.currentQuestionIndex < s.questions.length) :
    (handleAdvanceAfterRecording s).isAdvancing = true ∧
    (handleAdvanceAfterRecording s).recognitionRunning = false ∧
    (handleAdvanceAfterRecording s).allAnswers =
      s.allAnswers.set s.currentQuestionIndex (jsTrim s.latestTranscript) ∧
    (s.currentQuestionIndex + 1 = s.questions.length →
       (handleAdvanceAfterRecording s).interviewState = InterviewState.evaluating ∧
       (handleAdvanceAfterRecording s).currentQuestionIndex = s.currentQuestionIndex) ∧
    (s.currentQuestionIndex + 1 < s.questions.length →
       (handleAdvanceAfterRecording s).currentQuestionIndex = s.currentQuestionIndex + 1 ∧
       (handleAdvanceAfterRecording s).interviewState = InterviewState.inProgress ∧
       (questionEntryEffect (handleAdvanceAfterRecording s)).isAdvancing = false ∧
       (questionEntryEffect (handleAdvanceAfterRecording s)).interviewPhase =
         InterviewPhase.thinking ∧
       (questionEntryEffect (handleAdvanceAfterRecording s)).timer = 10) := by
  rw [handleAdvance_unlocked s hA hT]
  by_cases hc : s.currentQuestionIndex < s.questions.length - 1
  · rw [if_pos hc]
    refine ⟨rfl, rfl, rfl, fun hlast => absurd hlast (by omega), fun hlt => ?_⟩
    refine ⟨rfl, hIn, ?_, ?_, ?_⟩ <;>
      simp [questionEntryEffect, hIn, hlt]
  · rw [if_neg hc]
    exact ⟨rfl, rfl, rfl, fun _ => ⟨rfl, rfl⟩, fun hlt => absurd hlt (by omega)⟩

/-- Claim C4 witness at a concrete two-question session. -/
theorem advance_commits_and_progresses_witness :
    (handleAdvanceAfterRecording sampleSession).isAdvancing = true ∧
    (handleAdvanceAfterRecording sampleSession).allAnswers = ["hello world", ""] ∧
    (handleAdvanceAfterRecording sampleSession).currentQuestionIndex = 1 ∧
    (questionEntryEffect (handleAdvanceAfterRecording sampleSession)).isAdvancing = false := by
  have h := advance_commits_and_progresses sampleSession rfl rfl rfl (by decide)
  refine ⟨h.1, ?_, (h.2.2.2.2 (by decide)).1, (h.2.2.2.2 (by decide)).2.2.1⟩
  rw [h.2.2.1]
  decide

/-- Claim C1: with the recording countdown at zero, the timer expiry invokes
advance; a capture-error callback processed in the next turn is a no-op on
the answers, the index and the phase because the lock was set by the first
trigger, so exactly one commit to the current answer slot and exactly one
index increment (or, on the last question, exactly one transition to the
evaluating phase) occur; in particular a second advance invocation leaves
the state unchanged. -/
theorem advance_idempotent_under_concurrent_triggers (s : Session) (code : String)
    (hIn : s.interviewState = InterviewState.inProgress)
    (hPh : s.interviewPhase = InterviewPhase.recording)
    (hTimer : s.timer = 0)
    (hA : s.isAdvancing = false)
    (hT : s.isTerminated = false)
    (hIdx : s.currentQuestionIndex < s.questions.length) :
    timerStep s = handleAdvanceAfterRecording s ∧
    handleAdvanceAfterRecording (timerStep s) = timerStep s ∧
    (speechError code (timerStep s)).allAnswers =
      s.allAnswers.set s.currentQuestionIndex (jsTrim s.latestTranscript) ∧
    (s.currentQuestionIndex + 1 < s.questions.length →
       (speechError code (timerStep s)).currentQuestionIndex =
         s.currentQuestionIndex + 1 ∧
       (speechError code (timerStep s)).interviewState = InterviewState.inProgress) ∧
    (s.currentQuestionIndex + 1 = s.questions.length →
       (speechError code (timerStep s)).currentQuestionIndex =
         s.currentQuestionIndex ∧
       (speechError code (timerStep s)).interviewState = InterviewState.evaluating) := by
  have hstep := timerStep_recording_zero s hIn hT hPh hTimer
  rw [hstep, handleAdvance_unlocked s hA hT]
  by_cases hc : s.currentQuestionIndex < s.questions.length - 1
  · rw [if_pos hc]
    rw [speechError_locked code _ rfl, handleAdvance_locked _ rfl]
    exact ⟨rfl, rfl, rfl, fun _ => ⟨rfl, hIn⟩, fun hlast => absurd hlast (by omega)⟩
  · rw [if_neg hc]
    rw [speechError_locked code _ rfl, handleAdvance_locked _ rfl]
    exact ⟨rfl, rfl, rfl, fun hlt => absurd hlt (by omega), fun _ => ⟨rfl, rfl⟩⟩

/-- Claim C1 witness at a concrete two-question session with the recording
countdown at zero and a simultaneous no-speech error. -/
theorem advance_idempotent_under_concurrent_triggers_witness :
    handleAdvanceAfterRecording (timerStep sampleSession) = timerStep sampleSession ∧
    (speechError "no-speech" (timerStep sampleSession)).allAnswers =
      ["hello world", ""] ∧
    (speechError "no-speech" (timerStep sampleSession)).currentQuestionIndex = 1 := by
  have h := advance_idempotent_under_concurrent_triggers sampleSession "no-speech"
    rfl rfl rfl rfl rfl (by decide)
  refine ⟨h.2.1, ?_, (h.2.2.2.1 (by decide)).1⟩
  rw [h.2.2.1]
  decide

/-- Claim C2: once the terminated latch is set, a countdown turn, an advance
call and a proctoring signal leave the whole state unchanged, and the
speech recognition result and error callbacks leave the answers array, the
current question index and the phase unchanged. -/
theorem terminated_latch_freezes_session (s : Session) (t c : String)
    (h : s.isTerminated = true) :
    timerStep s = s ∧
    handleAdvanceAfterRecording s = s ∧
    handleFaceOutOfFrame s = s ∧
    (speechResult t s).allAnswers = s.allAnswers ∧
    (speechResult t s).currentQuestionIndex = s.currentQuestionIndex ∧
    (speechResult t s).interviewState = s.interviewState ∧
    (speechError c s).allAnswers = s.allAnswers ∧
    (speechError c s).currentQuestionIndex = s.currentQuestionIndex ∧
    (speechError c s).interviewState = s.interviewState := by
  refine ⟨?_, handleAdvance_terminated s h, ?_, rfl, rfl, rfl, ?_, ?_, ?_⟩
  · simp [timerStep, h]
  · simp [handleFaceOutOfFrame, h]
  all_goals simp [speechError, handleAdvanceAfterRecording, h]

/-- Claim C2 witness at a concrete terminated session. -/
theorem terminated_latch_freezes_session_witness :
    timerStep { sampleSession with isTerminated := true } =
      { sampleSession with isTerminated := true } ∧
    handleAdvanceAfterRecording { sampleSession with isTerminated := true } =
      { sampleSession with isTerminated := true } ∧
    (speechError "no-speech" { sampleSession with isTerminated := true }).allAnswers =
      ["", ""] :=
  have h := terminated_latch_freezes_session
    { sampleSession with isTerminated := true } "more words" "no-speech" rfl
  ⟨h.1, h.2.1, h.2.2.2.2.2.2.1⟩

/-- Claim C3: while in progress and not terminated, a first proctoring
signal only raises the warning count to 1 and shows the transient banner
(auto-cleared by the scheduled timeout), leaving everything else unchanged
and not terminating; a further signal sets the terminated latch with the
termination message; and a signal arriving terminated or out of the
in-progress phase is ignored entirely.  Hence one violation never
terminates and two violations while in progress always do. -/
theorem proctoring_two_strikes (s u : Session)
    (hIn : s.interviewState = InterviewState.inProgress)
    (hT : s.isTerminated = false)
    (hu : u.isTerminated = true ∨ u.interviewState ≠ InterviewState.inProgress) :
    (s.faceDetectionWarnings = 0 →
       handleFaceOutOfFrame s =
         { s with faceDetectionWarnings := 1, warningVisible := true } ∧
       (handleFaceOutOfFrame s).isTerminated = false ∧
       (warningTimeoutFire (handleFaceOutOfFrame s)).warningVisible = false ∧
       (handleFaceOutOfFrame (handleFaceOutOfFrame s)).isTerminated = true) ∧
    (s.faceDetectionWarnings ≠ 0 →
       (handleFaceOutOfFrame s).isTerminated = true ∧
       (handleFaceOutOfFrame s).terminationMessage = some faceTerminationMessage) ∧
    handleFaceOutOfFrame u = u := by
  refine ⟨fun h0 => ?_, fun h1 => ?_, ?_⟩
  · have hfirst : handleFaceOutOfFrame s =
        { s with faceDetectionWarnings := 1, warningVisible := true } := by
      simp [handleFaceOutOfFrame, hIn, hT, h0]
    refine ⟨hfirst, ?_, rfl, ?_⟩
    · rw [hfirst]; exact hT
    · rw [hfirst]
      simp [handleFaceOutOfFrame, hIn, hT]
  · constructor <;> simp [handleFaceOutOfFrame, hIn, hT, h1]
  · rcases hu with hu | hu <;> simp [handleFaceOutOfFrame, hu]

/-- Claim C3 witness: concrete first and second violations while recording,
and an ignored violation in the upload phase. -/
theorem proctoring_two_strikes_witness :
    (handleFaceOutOfFrame sampleSession).isTerminated = false ∧
    (handleFaceOutOfFrame (handleFaceOutOfFrame sampleSession)).isTerminated = true ∧
    handleFaceOutOfFrame { sampleSession with interviewState := InterviewState.upload } =
      { sampleSession with interviewState := InterviewState.upload } :=
  have h := proctoring_two_strikes sampleSession
    { sampleSession with interviewState := InterviewState.upload }
    rfl rfl (Or.inr (by decide))
  ⟨(h.1 rfl).2.1, (h.1 rfl).2.2.2, h.2.2⟩

/-- Claim C7: a capture-engine error during recording with time still on
the clock records the user-visible message and advances immediately,
committing the trimmed transcript accumulated so far (the empty string when
nothing was heard) into the current answer slot. -/
theorem capture_error_advances_immediately (s : Session)
    (hIn : s.interviewState = InterviewState.inProgress)
    (hPh : s.interviewPhase = InterviewPhase.recording)
    (hTimer : 0 < s.timer)
    (hA : s.isAdvancing = false)
    (hT : s.isTerminated = false)
    (hIdx : s.currentQuestionIndex < s.questions.length) :
    (speechError "no-speech" s).recognitionError =
      some (recognitionErrorMessage "no-speech") ∧
    (speechError "no-speech" s).isAdvancing = true ∧
    (speechError "no-speech" s).allAnswers =
      s.allAnswers.set s.currentQuestionIndex (jsTrim s.latestTranscript) ∧
    (s.latestTranscript = "" →
       (speechError "no-speech" s).allAnswers =
         s.allAnswers.set s.currentQuestionIndex "") ∧
    (s.currentQuestionIndex + 1 < s.questions.length →
       (speechError "no-speech" s).currentQuestionIndex = s.currentQuestionIndex + 1) ∧
    (s.currentQuestionIndex + 1 = s.questions.length →
       (speechError "no-speech" s).interviewState = InterviewState.evaluating) := by
  by_cases hc : s.currentQuestionIndex < s.questions.length - 1
  · rw [speechError, handleAdvance_unlocked_next
      { s with recognitionError := some (recognitionErrorMessage "no-speech") } hA hT hc]
    refine ⟨rfl, rfl, rfl, fun he => ?_, fun _ => rfl,
      fun hlast => absurd hlast (by omega)⟩
    rw [he]; rfl
  · rw [speechError, handleAdvance_unlocked_last
      { s with recognitionError := some (recognitionErrorMessage "no-speech") } hA hT hc]
    refine ⟨rfl, rfl, rfl, fun he => ?_, fun hlt => absurd hlt (by omega),
      fun _ => rfl⟩
    rw [he]; rfl

/-- Claim C7 witness: a no-speech error with twenty seconds left on the
recording clock of a session that heard nothing. -/
theorem capture_error_advances_immediately_witness :
    (speechError "no-speech"
      { sampleSession with timer := 20, latestTranscript := "" }).allAnswers =
      ["", ""] ∧
    (speechError "no-speech"
      { sampleSession with timer := 20, latestTranscript := "" }).isAdvancing = true :=
  have h := capture_error_advances_immediately
    { sampleSession with timer := 20, latestTranscript := "" }
    rfl rfl (by decide) rfl rfl (by decide)
  ⟨h.2.2.2.1 rfl, h.2.1⟩

/-- Claim C10: the upload handler accepts only the three allowed MIME
types; any other type sets the error message and leaves the previously
selected file untouched, and while the error is set the Start Interview
button is disabled; an allowed type stores the file and clears the error;
an empty selection changes nothing. -/
theorem upload_rejects_bad_mime_type (s : Session) (good bad : FileInfo)
    (rest1 rest2 : List FileInfo)
    (hGood : good.type ∈ allowedTypes)
    (hBad : bad.type ∉ allowedTypes) :
    handleFileChange (bad :: rest1) s =
      { s with error := some unsupportedFileTypeMessage } ∧
    (handleFileChange (bad :: rest1) s).resumeFile = s.resumeFile ∧
    startButtonDisabled (handleFileChange (bad :: rest1) s) = true ∧
    handleFileChange (good :: rest2) s =
      { s with resumeFile := some good, error := none } ∧
    handleFileChange [] s = s := by
  have hrej : handleFileChange (bad :: rest1) s =
      { s with error := some unsupportedFileTypeMessage } := by
    simp [handleFileChange, hBad]
  refine ⟨hrej, by rw [hrej], by rw [hrej]; simp [startButtonDisabled], ?_, rfl⟩
  simp [handleFileChange, hGood]

/-- Claim C10 witness: a PNG is rejected while a PDF is accepted, on a
session that already holds a valid selected file. -/
theorem upload_rejects_bad_mime_type_witness :
    (handleFileChange [{ name := "x.png", type := "image/png" }] sampleSession).resumeFile =
      some { name := "cv.pdf", type := "application/pdf" } ∧
    (handleFileChange [{ name := "x.png", type := "image/png" }] sampleSession).error =
      some unsupportedFileTypeMessage ∧
    startButtonDisabled
      (handleFileChange [{ name := "x.png", type := "image/png" }] sampleSession) = true ∧
    (handleFileChange [{ name := "r.txt", type := "text/plain" }] sampleSession).resumeFile =
      some { name := "r.txt", type := "text/plain" } :=
  have h := upload_rejects_bad_mime_type sampleSession
    { name := "r.txt", type := "text/plain" } { name := "x.png", type := "image/png" }
    [] [] (by decide) (by decide)
  ⟨by rw [h.2.1]; rfl, by rw [h.1], h.2.2.1, by rw [h.2.2.2.1]⟩

/-- While time remains, iterating the countdown effect only decrements the
timer, one second per turn. -/
lemma timerStep_iterate_tick (s : Session)
    (hIn : s.interviewState = InterviewState.inProgress)
    (hT : s.isTerminated = false) :
    ∀ k, k ≤ s.timer → timerStep^[k] s = { s with timer := s.timer - k } := by
  intro k
  induction k with
  | zero => intro _; simp
  | succ n ih =>
    intro hk
    rw [Function.iterate_succ_apply', ih (by omega)]
    have hpos : 0 < s.timer - n := by omega
    rw [show timerStep { s with timer := s.timer - n } =
        { s with timer := s.timer - n - 1 } by simp [timerStep, hIn, hT, hpos]]
    rw [Nat.sub_sub]

/-- Claim C5: entering a question puts the session in the thinking
sub-phase with a 10-second timer; the timer decrements by one each second
while thinking; on the eleventh countdown turn (the turn processed with the
timer at zero) the sub-phase becomes recording with the timer reset to 30
and the capture engine started; the timer then decrements each second while
recording, and the countdown turn processed with the recording timer at
zero invokes the advance routine. -/
theorem per_question_timing_cycle (s : Session)
    (hIn : s.interviewState = InterviewState.inProgress)
    (hT : s.isTerminated = false)
    (hIdx : s.currentQuestionIndex < s.questions.length) :
    (questionEntryEffect s).interviewPhase = InterviewPhase.thinking ∧
    (questionEntryEffect s).timer = 10 ∧
    (∀ k, k ≤ 10 →
       (timerStep^[k] (questionEntryEffect s)).timer = 10 - k ∧
       (timerStep^[k] (questionEntryEffect s)).interviewPhase =
         InterviewPhase.thinking) ∧
    timerStep^[11] (questionEntryEffect s) =
      { questionEntryEffect s with
          interviewPhase := InterviewPhase.recording,
          timer := 30,
          recognitionRunning := true } ∧
    (∀ k, k ≤ 30 →
       (timerStep^[k + 11] (questionEntryEffect s)).timer = 30 - k ∧
       (timerStep^[k + 11] (questionEntryEffect s)).interviewPhase =
         InterviewPhase.recording) ∧
    timerStep^[42] (questionEntryEffect s) =
      handleAdvanceAfterRecording (timerStep^[41] (questionEntryEffect s)) := by
  have he : questionEntryEffect s =
      { s with interviewPhase := InterviewPhase.thinking, timer := 10,
               transcribedText := "", latestTranscript := "",
               isAdvancing := false, recognitionError := none } := by
    simp [questionEntryEffect, hIn, hIdx]
  have tickE := timerStep_iterate_tick
    { s with interviewPhase := InterviewPhase.thinking, timer := 10,
             transcribedText := "", latestTranscript := "",
             isAdvancing := false, recognitionError := none } hIn hT
  have h11 : timerStep^[11] (questionEntryEffect s) =
      { s with interviewPhase := InterviewPhase.recording, timer := 30,
               transcribedText := "", latestTranscript := "",
               isAdvancing := false, recognitionError := none,
               recognitionRunning := true } := by
    rw [he, show (11 : Nat) = 1 + 10 from rfl, Function.iterate_add_apply,
      tickE 10 (Nat.le_refl 10), Function.iterate_one]
    simp [timerStep, hIn, hT]
  have tickM := timerStep_iterate_tick
    { s with interviewPhase := InterviewPhase.recording, timer := 30,
             transcribedText := "", latestTranscript := "",
             isAdvancing := false, recognitionError := none,
             recognitionRunning := true } hIn hT
  have hplus : ∀ k, timerStep^[k + 11] (questionEntryEffect s) =
      timerStep^[k] (timerStep^[11] (questionEntryEffect s)) := fun k =>
    Function.iterate_add_apply timerStep k 11 (questionEntryEffect s)
  have h41 : timerStep^[41] (questionEntryEffect s) =
      { s with interviewPhase := InterviewPhase.recording, timer := 0,
               transcribedText := "", latestTranscript := "",
               isAdvancing := false, recognitionError := none,
               recognitionRunning := true } := by
    rw [show (41 : Nat) = 30 + 11 from rfl, hplus 30, h11, tickM 30 (Nat.le_refl 30)]
    rfl
  refine ⟨by rw [he], by rw [he], ?_, by rw [h11, he], ?_, ?_⟩
  · intro k hk
    rw [he, tickE k (by exact hk)]
    exact ⟨rfl, rfl⟩
  · intro k hk
    rw [hplus k, h11, tickM k (by exact hk)]
    exact ⟨rfl, rfl⟩
  · rw [show (42 : Nat) = 1 + 41 from rfl, Function.iterate_add_apply,
      Function.iterate_one, h41]
    exact timerStep_recording_zero _ hIn hT rfl rfl

/-- Claim C5 witness: the full 42-turn cycle at a concrete two-question
session, checked at the two sub-phase transitions and the final advance. -/
theorem per_question_timing_cycle_witness :
    (questionEntryEffect sampleSession).timer = 10 ∧
    timerStep^[11] (questionEntryEffect sampleSession) =
      { questionEntryEffect sampleSession with
          interviewPhase := InterviewPhase.recording,
          timer := 30,
          recognitionRunning := true } ∧
    timerStep^[42] (questionEntryEffect sampleSession) =
      handleAdvanceAfterRecording (timerStep^[41] (questionEntryEffect sampleSession)) :=
  have h := per_question_timing_cycle sampleSession rfl rfl (by decide)
  ⟨h.2.1, h.2.2.2.1, h.2.2.2.2.2⟩

/-- Indexing a mapped range list. -/
lemma getD_map_range {α : Type} (n i : Nat) (f : Nat → α) (d : α) (h : i < n) :
    ((List.range n).map f).getD i d = f i := by
  rw [List.getD_eq_getElem?_getD, List.getElem?_map, List.getElem?_range h]
  rfl

/-- Explicit form of the batch evaluation effect in the evaluating phase. -/
lemma evaluateAllAnswers_eq (cfg : Bool)
    (oracle : Nat → AiCallOutcome EvalResponse) (s : Session)
    (hs : s.interviewState = InterviewState.evaluating) :
    evaluateAllAnswers cfg oracle s =
      { s with
        interviewResults := (List.range s.questions.length).map fun i =>
          { question := s.questions.getD i ""
            answer := answerOrPlaceholder (s.allAnswers.getD i "")
            feedback := (evaluateAnswer cfg (oracle i)).feedback
            score := (evaluateAnswer cfg (oracle i)).score }
        interviewState := InterviewState.summarizing } := by
  simp [evaluateAllAnswers, hs]

/-- Claim C6: entering the evaluating phase issues exactly one evaluation
request per question, each carrying the question and its committed answer
with the fixed placeholder substituted for an empty answer; the transition
to the summarizing phase happens in the same turn as the assembly, only
after every response is available (`Promise.all` is the fan-in barrier and
returns the responses positionally, so completion order cannot influence
the result), and the assembled result sequence is indexed by the original
question order. -/
theorem evaluation_fanout_fanin_order (cfg : Bool)
    (oracle : Nat → AiCallOutcome EvalResponse) (s : Session)
    (hs : s.interviewState = InterviewState.evaluating) :
    (evaluationRequests s).length = s.questions.length ∧
    (∀ i, i < s.questions.length →
       (evaluationRequests s).getD i ("", "") =
         (s.questions.getD i "", answerOrPlaceholder (s.allAnswers.getD i ""))) ∧
    (evaluateAllAnswers cfg oracle s).interviewState = InterviewState.summarizing ∧
    (evaluateAllAnswers cfg oracle s).interviewResults.length = s.questions.length ∧
    (∀ i, i < s.questions.length →
       (evaluateAllAnswers cfg oracle s).interviewResults.getD i default =
         { question := s.questions.getD i ""
           answer := answerOrPlaceholder (s.allAnswers.getD i "")
           feedback := (evaluateAnswer cfg (oracle i)).feedback
           score := (evaluateAnswer cfg (oracle i)).score }) ∧
    (∀ i, i < s.questions.length → s.allAnswers.getD i "" = "" →
       ((evaluateAllAnswers cfg oracle s).interviewResults.getD i default).answer =
         "[No answer recorded]") := by
  rw [evaluateAllAnswers_eq cfg oracle s hs]
  refine ⟨by simp [evaluationRequests], fun i hi => ?_, rfl, by simp, fun i hi => ?_,
    fun i hi hempty => ?_⟩
  · rw [evaluationRequests, getD_map_range _ i _ _ hi]
  · rw [show ({ s with
        interviewResults := (List.range s.questions.length).map fun i =>
          { question := s.questions.getD i ""
            answer := answerOrPlaceholder (s.allAnswers.getD i "")
            feedback := (evaluateAnswer cfg (oracle i)).feedback
            score := (evaluateAnswer cfg (oracle i)).score }
        interviewState := InterviewState.summarizing } : Session).interviewResults =
      (List.range s.questions.length).map fun i =>
          { question := s.questions.getD i ""
            answer := answerOrPlaceholder (s.allAnswers.getD i "")
            feedback := (evaluateAnswer cfg (oracle i)).feedback
            score := (evaluateAnswer cfg (oracle i)).score } from rfl,
      getD_map_range _ i _ _ hi]
  · rw [show ({ s with
        interviewResults := (List.range s.questions.length).map fun i =>
          { question := s.questions.getD i ""
            answer := answerOrPlaceholder (s.allAnswers.getD i "")
            feedback := (evaluateAnswer cfg (oracle i)).feedback
            score := (evaluateAnswer cfg (oracle i)).score }
        interviewState := InterviewState.summarizing } : Session).interviewResults =
      (List.range s.questions.length).map fun i =>
          { question := s.questions.getD i ""
            answer := answerOrPlaceholder (s.allAnswers.getD i "")
            feedback := (evaluateAnswer cfg (oracle i)).feedback
            score := (evaluateAnswer cfg (oracle i)).score } from rfl,
      getD_map_range _ i _ _ hi]
    show answerOrPlaceholder (s.allAnswers.getD i "") = "[No answer recorded]"
    rw [hempty]
    rfl

/-- The assembled result at one in-range index. -/
lemma interviewResults_evaluateAll (cfg : Bool)
    (oracle : Nat → AiCallOutcome EvalResponse) (s : Session)
    (hs : s.interviewState = InterviewState.evaluating)
    (i : Nat) (hi : i < s.questions.length) :
    (evaluateAllAnswers cfg oracle s).interviewResults.getD i default =
      { question := s.questions.getD i ""
        answer := answerOrPlaceholder (s.allAnswers.getD i "")
        feedback := (evaluateAnswer cfg (oracle i)).feedback
        score := (evaluateAnswer cfg (oracle i)).score } := by
  rw [evaluateAllAnswers_eq cfg oracle s hs]
  exact getD_map_range _ i _ _ hi

/-- A concrete three-question session entering the evaluating phase, with
an empty committed answer for the second question. -/
def sampleEvaluatingSession : Session :=
  { sampleSession with
      interviewState := InterviewState.evaluating
      questions := ["Q1", "Q2", "Q3"]
      currentQuestionIndex := 2
      allAnswers := ["alpha", "", "gamma"]
      isAdvancing := true }

/-- Claim C6 witness: three questions evaluated with a constant successful
oracle; the middle answer was empty and receives the placeholder. -/
theorem evaluation_fanout_fanin_order_witness :
    (evaluateAllAnswers true
      (fun _ => AiCallOutcome.success { feedback := some "fb", score := some 4 })
      sampleEvaluatingSession).interviewResults.length = 3 ∧
    ((evaluateAllAnswers true
      (fun _ => AiCallOutcome.success { feedback := some "fb", score := some 4 })
      sampleEvaluatingSession).interviewResults.getD 1 default).answer =
      "[No answer recorded]" ∧
    (evaluateAllAnswers true
      (fun _ => AiCallOutcome.success { feedback := some "fb", score := some 4 })
      sampleEvaluatingSession).interviewState = InterviewState.summarizing :=
  have h := evaluation_fanout_fanin_order true
    (fun _ => AiCallOutcome.success { feedback := some "fb", score := some 4 })
    sampleEvaluatingSession rfl
  ⟨h.2.2.2.1.trans rfl, h.2.2.2.2.2 1 (by decide) rfl, h.2.2.1⟩

/-- Claim C8: a failed evaluation call for one question yields score 0 and
the fixed fallback feedback for that question, while every other question
keeps the feedback and score of its successful response; the effect is a
total function (no exception escapes), and the summarisation step still
carries the session on to the results phase. -/
theorem evaluation_failure_degrades_gracefully
    (oracle : Nat → AiCallOutcome EvalResponse)
    (f : Nat → String) (sc : Nat → Int)
    (so : AiCallOutcome PerformanceSummary)
    (s : Session) (j : Nat)
    (hs : s.interviewState = InterviewState.evaluating)
    (hj : j < s.questions.length)
    (hfail : oracle j = AiCallOutcome.failure)
    (hok : ∀ i, i < s.questions.length → i ≠ j →
       oracle i = AiCallOutcome.success { feedback := some (f i), score := some (sc i) }) :
    ((evaluateAllAnswers true oracle s).interviewResults.getD j default).score = 0 ∧
    ((evaluateAllAnswers true oracle s).interviewResults.getD j default).feedback =
      evalErrorFeedback ∧
    (∀ i, i < s.questions.length → i ≠ j →
       ((evaluateAllAnswers true oracle s).interviewResults.getD i default).score = sc i ∧
       ((evaluateAllAnswers true oracle s).interviewResults.getD i default).feedback = f i) ∧
    (summarizeStep true so (evaluateAllAnswers true oracle s)).interviewState =
      InterviewState.results := by
  refine ⟨?_, ?_, fun i hi hne => ?_, ?_⟩
  · rw [interviewResults_evaluateAll true oracle s hs j hj, hfail]; rfl
  · rw [interviewResults_evaluateAll true oracle s hs j hj, hfail]; rfl
  · rw [interviewResults_evaluateAll true oracle s hs i hi, hok i hi hne]
    exact ⟨rfl, rfl⟩
  · rw [evaluateAllAnswers_eq true oracle s hs]
    simp [summarizeStep]

/-- Claim C8 witness: three questions, the second call fails, the others
succeed with score 4; the second result is the zero-score fallback and the
pipeline still reaches the results phase. -/
theorem evaluation_failure_degrades_gracefully_witness :
    ((evaluateAllAnswers true
        (fun i => if i = 1 then AiCallOutcome.failure
          else AiCallOutcome.success { feedback := some "good", score := some 4 })
        sampleEvaluatingSession).interviewResults.getD 1 default).score = 0 ∧
    ((evaluateAllAnswers true
        (fun i => if i = 1 then AiCallOutcome.failure
          else AiCallOutcome.success { feedback := some "good", score := some 4 })
        sampleEvaluatingSession).interviewResults.getD 0 default).score = 4 ∧
    (summarizeStep true
        (AiCallOutcome.success { strengths := "ok", areasForImprovement := "ok" })
        (evaluateAllAnswers true
          (fun i => if i = 1 then AiCallOutcome.failure
            else AiCallOutcome.success { feedback := some "good", score := some 4 })
          sampleEvaluatingSession)).interviewState = InterviewState.results :=
  have h := evaluation_failure_degrades_gracefully
    (fun i => if i = 1 then AiCallOutcome.failure
      else AiCallOutcome.success { feedback := some "good", score := some 4 })
    (fun _ => "good") (fun _ => 4)
    (AiCallOutcome.success { strengths := "ok", areasForImprovement := "ok" })
    sampleEvaluatingSession 1 rfl (by decide) (by decide)
    (by intro i _ hne; simp [hne])
  ⟨h.1, (h.2.2.1 0 (by decide) (by decide)).1, h.2.2.2⟩

/-- Claim C9 counterexample: the evaluation pipeline can produce an
EvaluatedResult whose score is 0, outside the 1 to 5 range the claim
asserts, namely whenever the evaluation call fails. -/
theorem evaluated_score_out_of_range_cex :
    ((evaluateAllAnswers true (fun _ => AiCallOutcome.failure)
        sampleEvaluatingSession).interviewResults.getD 0 default).score = 0 ∧
    ¬(1 ≤ ((evaluateAllAnswers true (fun _ => AiCallOutcome.failure)
        sampleEvaluatingSession).interviewResults.getD 0 default).score ∧
      ((evaluateAllAnswers true (fun _ => AiCallOutcome.failure)
        sampleEvaluatingSession).interviewResults.getD 0 default).score ≤ 5) := by
  decide

/-- Claim C9 as amended: every EvaluatedResult produced by the pipeline
carries exactly the score computed by `evaluateAnswer`: the response score
verbatim when the API key is configured and the call returned a well-typed
response (no 1 to 5 range check is performed), and 0 when the key is
missing or the call failed. -/
theorem evaluated_score_verbatim_or_zero (cfg : Bool)
    (oracle : Nat → AiCallOutcome EvalResponse) (s : Session)
    (hs : s.interviewState = InterviewState.evaluating) :
    ∀ i, i < s.questions.length →
      ((evaluateAllAnswers cfg oracle s).interviewResults.getD i default).score =
        (evaluateAnswer cfg (oracle i)).score ∧
      (oracle i = AiCallOutcome.failure →
        ((evaluateAllAnswers cfg oracle s).interviewResults.getD i default).score = 0) ∧
      (cfg = false →
        ((evaluateAllAnswers cfg oracle s).interviewResults.getD i default).score = 0) ∧
      (∀ fb v, oracle i = AiCallOutcome.success { feedback := some fb, score := some v } →
        cfg = true →
        ((evaluateAllAnswers cfg oracle s).interviewResults.getD i default).score = v) := by
  intro i hi
  rw [interviewResults_evaluateAll cfg oracle s hs i hi]
  refine ⟨rfl, fun hf => ?_, fun hcfg => ?_, fun fb v hsucc hcfg => ?_⟩
  · rw [hf]; cases cfg <;> rfl
  · rw [hcfg]; rfl
  · rw [hsucc, hcfg]; rfl

/-- Claim C9 amended witness: a failing call yields score 0 and a
successful call with score 7 is stored verbatim. -/
theorem evaluated_score_verbatim_or_zero_witness :
    ((evaluateAllAnswers true
        (fun i => if i = 0 then AiCallOutcome.failure
          else AiCallOutcome.success { feedback := some "fine", score := some 7 })
        sampleEvaluatingSession).interviewResults.getD 0 default).score = 0 ∧
    ((evaluateAllAnswers true
        (fun i => if i = 0 then AiCallOutcome.failure
          else AiCallOutcome.success { feedback := some "fine", score := some 7 })
        sampleEvaluatingSession).interviewResults.getD 1 default).score = 7 :=
  have h0 := evaluated_score_verbatim_or_zero true
    (fun i => if i = 0 then AiCallOutcome.failure
      else AiCallOutcome.success { feedback := some "fine", score := some 7 })
    sampleEvaluatingSession rfl 0 (by decide)
  have h1 := evaluated_score_verbatim_or_zero true
    (fun i => if i = 0 then AiCallOutcome.failure
      else AiCallOutcome.success { feedback := some "fine", score := some 7 })
    sampleEvaluatingSession rfl 1 (by decide)
  ⟨h0.2.1 rfl, h1.2.2.2 "fine" 7 rfl rfl⟩

end AIInterview
